import Mathlib

/-!
Verification of the resilience layer of the `xapi-rs` client.

The definitions below are a shallow embedding of the Rust source:

* `src/src/error.rs` — the `Error` enum, `Error::is_retryable`,
  `Error::retry_after` and the small classification helpers;
* `src/src/retry/policy.rs` — `RetryPolicy`, its preset constructors and
  `RetryPolicyBuilder::build`;
* `src/src/rate_limit/mod.rs` — `RateLimitConfig` and its builder;
* `src/src/client.rs` — `ClientBuilder::build`.

Conventions of the embedding:

* Rust `std::time::Duration` values are modelled as natural numbers of
  nanoseconds (`Duration` compares lexicographically on `(secs, nanos)`
  with `nanos < 10^9`, which is order-isomorphic to total nanoseconds).
* `chrono::DateTime<Utc>` timestamps are modelled as integers (nanoseconds
  since the epoch); `Utc::now()` becomes an explicit `now` argument.
* `f64` values are modelled by the inductive `F64`: the code under
  verification only compares a multiplier against `0.0` and asks whether it
  is finite, and every finite `f64` is a rational number whose IEEE-754
  comparisons agree with the rational order.
* External library error payloads (`reqwest::Error`, `serde_json::Error`,
  `std::io::Error`) are opaque to the classification logic; they are
  modelled as plain message-carrying structures.
-/

namespace XApi

/-- Payload of `Error::Network`: an external `reqwest::Error`. The
classification logic never inspects it, so it is modelled as an opaque
message. -/
structure ReqwestError where
  message : String
deriving DecidableEq, Repr

/-- Payload of `Error::Serialization`: an external `serde_json::Error`. -/
structure SerdeError where
  message : String
deriving DecidableEq, Repr

/-- Payload of the `Io` variant: an external `std::io::Error`, carrying an
error kind such as `ConnectionRefused` and a message. -/
structure IoError where
  kind : String
  message : String
deriving DecidableEq, Repr

/-- Embedding of `ApiErrorDetail` from `src/src/error.rs`: structured error
details of an API error response. `status` is the optional HTTP status
code (`Option<u16>` in the source, modelled as `Option Nat`). -/
structure ApiErrorDetail where
  code : String
  message : String
  parameter : Option String
  value : Option String
  type_uri : Option String
  status : Option Nat
deriving DecidableEq, Repr

/-- Embedding of the `Error` enum from `src/src/error.rs`, one constructor
per Rust variant, in source order. `RateLimitExceeded.reset_at` is a
timestamp (integer nanoseconds since the epoch); `Timeout` carries a
duration in nanoseconds. -/
inductive Error where
  | Network (e : ReqwestError)
  | Serialization (e : SerdeError)
  | Api (detail : ApiErrorDetail)
  | Authentication (msg : String)
  | Authorization (msg : String)
  | RateLimitExceeded (reset_at : Int) (endpoint : String) (remaining : Nat) (limit : Nat)
  | InvalidRequest (msg : String)
  | NotFound (msg : String)
  | StreamConnection (msg : String)
  | StreamDisconnected (msg : String)
  | InvalidResponse (msg : String)
  | OAuth (msg : String)
  | ioError (e : IoError)
  | Timeout (duration : Nat)
  | Config (msg : String)
deriving DecidableEq, Repr

/-- Embedding of `Error::is_retryable` (`src/src/error.rs`, lines 128-166),
match arms in source order. -/
def Error.is_retryable : Error → Bool
  | .Network _ => true
  | .RateLimitExceeded .. => true
  | .StreamDisconnected _ => true
  | .Timeout _ => true
  | .InvalidResponse _ => true
  | .Api detail =>
      match detail.status with
      | some status => decide (500 ≤ status ∧ status < 600)
      | none => false
  | .Authentication _ => false
  | .Authorization _ => false
  | .InvalidRequest _ => false
  | .NotFound _ => false
  | .OAuth _ => false
  | .Config _ => false
  | .Serialization _ => false
  | .StreamConnection _ => false
  | .ioError _ => false

/-- Embedding of `Error::retry_after` (`src/src/error.rs`, lines 175-188).
The source reads `Utc::now()`; here `now` is an explicit argument. When
`reset_at > now` the chrono duration `reset_at - now` is positive, so its
conversion `to_std().ok()` yields `Some`; this is `(reset_at - now).toNat`
here. All other variants return `none`. -/
def Error.retry_after (e : Error) (now : Int) : Option Nat :=
  match e with
  | .RateLimitExceeded reset_at _ _ _ =>
      if now < reset_at then some (reset_at - now).toNat else some 0
  | _ => none

/-- Embedding of `Error::is_rate_limit` (`src/src/error.rs`, lines 191-193). -/
def Error.is_rate_limit : Error → Bool
  | .RateLimitExceeded .. => true
  | _ => false

/-- Embedding of `Error::is_auth_error` (`src/src/error.rs`, lines 196-201). -/
def Error.is_auth_error : Error → Bool
  | .Authentication _ => true
  | .Authorization _ => true
  | .OAuth _ => true
  | _ => false

/-- Embedding of `Error::is_server_error` (`src/src/error.rs`, lines 219-230). -/
def Error.is_server_error : Error → Bool
  | .Api detail =>
      match detail.status with
      | some status => decide (500 ≤ status ∧ status < 600)
      | none => false
  | _ => false

/-- Model of an `f64` value as the classification code observes it. The
verified code only evaluates `multiplier <= 0.0` and
`multiplier.is_finite()`: every finite IEEE-754 double is a rational
number, and IEEE comparison between finite doubles agrees with the
rational order, while `NaN <= 0.0` is false and `±∞` are not finite. -/
inductive F64 where
  | nan
  | posInf
  | negInf
  | finite (q : ℚ)
deriving DecidableEq, Repr

/-- Model of `f64::is_finite`. -/
def F64.isFinite : F64 → Bool
  | .finite _ => true
  | _ => false

/-- Model of the IEEE comparison `x <= 0.0`: false for NaN (all comparisons
with NaN are false) and for `+∞`, true for `-∞`, and the rational
comparison for finite values. -/
def F64.leZero : F64 → Bool
  | .nan => false
  | .posInf => false
  | .negInf => true
  | .finite q => decide (q ≤ 0)

/-- Embedding of `RetryPolicy` from `src/src/retry/policy.rs` (lines
12-28): intervals in nanoseconds, multiplier an `F64`. Fields are private
in the source; all construction goes through the presets or the builder. -/
structure RetryPolicy where
  max_retries : Nat
  initial_interval : Nat
  max_interval : Nat
  multiplier : F64
  jitter : Bool
deriving DecidableEq, Repr

/-- Embedding of `RetryPolicy::default` (`src/src/retry/policy.rs`, lines
179-189): 3 retries, 1 s initial, 60 s max, multiplier 2.0, jitter on. -/
def RetryPolicy.default : RetryPolicy :=
  { max_retries := 3
    initial_interval := 1000000000
    max_interval := 60000000000
    multiplier := .finite 2
    jitter := true }

/-- Embedding of `RetryPolicy::new` (`src/src/retry/policy.rs`, lines
39-41): delegates to `default`. -/
def RetryPolicy.new : RetryPolicy := RetryPolicy.default

/-- Embedding of `RetryPolicy::none` (`src/src/retry/policy.rs`, lines
44-52): no retries, 1 s intervals, multiplier 1.0, no jitter. -/
def RetryPolicy.none : RetryPolicy :=
  { max_retries := 0
    initial_interval := 1000000000
    max_interval := 1000000000
    multiplier := .finite 1
    jitter := false }

/-- Embedding of `RetryPolicy::aggressive` (`src/src/retry/policy.rs`,
lines 55-63): 5 retries, 100 ms initial, 30 s max, multiplier 2.0. -/
def RetryPolicy.aggressive : RetryPolicy :=
  { max_retries := 5
    initial_interval := 100000000
    max_interval := 30000000000
    multiplier := .finite 2
    jitter := true }

/-- Embedding of `RetryPolicyBuilder` (`src/src/retry/policy.rs`, lines
98-104); same fields as the policy, seeded by its `Default` impl. -/
structure RetryPolicyBuilder where
  max_retries : Nat
  initial_interval : Nat
  max_interval : Nat
  multiplier : F64
  jitter : Bool
deriving DecidableEq, Repr

/-- Embedding of `RetryPolicyBuilder`'s `Default` impl
(`src/src/retry/policy.rs`, lines 106-116). -/
def RetryPolicyBuilder.default : RetryPolicyBuilder :=
  { max_retries := 3
    initial_interval := 1000000000
    max_interval := 60000000000
    multiplier := .finite 2
    jitter := true }

/-- Embedding of `RetryPolicyBuilder::build` (`src/src/retry/policy.rs`,
lines 156-177): rejects a multiplier that is `<= 0.0` or not finite, then
rejects `initial_interval > max_interval`, otherwise freezes the
configured fields into a policy. -/
def RetryPolicyBuilder.build (b : RetryPolicyBuilder) : Except Error RetryPolicy :=
  if b.multiplier.leZero || !b.multiplier.isFinite then
    .error (.Config "Retry multiplier must be positive and finite")
  else if b.max_interval < b.initial_interval then
    .error (.Config "Initial interval must be <= max interval")
  else
    .ok { max_retries := b.max_retries
          initial_interval := b.initial_interval
          max_interval := b.max_interval
          multiplier := b.multiplier
          jitter := b.jitter }

/-- The policy invariant of the spec: `initial_interval <= max_interval`
and the multiplier is finite and strictly positive. -/
def RetryPolicy.invariantHolds (p : RetryPolicy) : Prop :=
  p.initial_interval ≤ p.max_interval ∧ ∃ q : ℚ, p.multiplier = .finite q ∧ 0 < q

/-- C5: `RetryPolicyBuilder::build` returns a `Config` error exactly when
the configured multiplier is `<= 0`, NaN or infinite (that is, `leZero` or
not finite in the `F64` model) or the configured `initial_interval`
exceeds the configured `max_interval`; on success the resulting policy's
fields equal the configured values. -/
theorem c5_builder_build_spec (b : RetryPolicyBuilder) :
    ((∃ msg, b.build = .error (.Config msg)) ↔
      (b.multiplier.leZero = true ∨ b.multiplier.isFinite = false ∨
        b.max_interval < b.initial_interval)) ∧
    ∀ p : RetryPolicy, b.build = .ok p →
      p.max_retries = b.max_retries ∧ p.initial_interval = b.initial_interval ∧
      p.max_interval = b.max_interval ∧ p.multiplier = b.multiplier ∧
      p.jitter = b.jitter := by
  constructor
  · constructor
    · rintro ⟨msg, hmsg⟩
      rw [RetryPolicyBuilder.build] at hmsg
      split at hmsg
      · rename_i hc
        simp only [Bool.or_eq_true, Bool.not_eq_true'] at hc
        rcases hc with hc | hc
        · exact Or.inl hc
        · exact Or.inr (Or.inl hc)
      · split at hmsg
        · rename_i hc
          exact Or.inr (Or.inr hc)
        · exact absurd hmsg (by simp)
    · intro hc
      rw [RetryPolicyBuilder.build]
      split
      · exact ⟨_, rfl⟩
      · rename_i hfirst
        simp only [Bool.or_eq_true, Bool.not_eq_true'] at hfirst
        push_neg at hfirst
        split
        · exact ⟨_, rfl⟩
        · rename_i hsecond
          rcases hc with hc | hc | hc
          · exact absurd hc hfirst.1
          · exact absurd hc hfirst.2
          · exact absurd hc hsecond
  · intro p h
    rw [RetryPolicyBuilder.build] at h
    split at h
    · exact absurd h (by simp)
    · split at h
      · exact absurd h (by simp)
      · cases h
        exact ⟨rfl, rfl, rfl, rfl, rfl⟩

/-- C5 witness: at the default builder, `build` succeeds and the policy's
fields equal the configured defaults. -/
theorem c5_builder_build_spec_witness :
    RetryPolicyBuilder.default.build = .ok RetryPolicy.default ∧
    (RetryPolicy.default.max_retries = RetryPolicyBuilder.default.max_retries ∧
     RetryPolicy.default.initial_interval = RetryPolicyBuilder.default.initial_interval ∧
     RetryPolicy.default.max_interval = RetryPolicyBuilder.default.max_interval ∧
     RetryPolicy.default.multiplier = RetryPolicyBuilder.default.multiplier ∧
     RetryPolicy.default.jitter = RetryPolicyBuilder.default.jitter) :=
  ⟨rfl, (c5_builder_build_spec RetryPolicyBuilder.default).2 RetryPolicy.default rfl⟩

/-- C6: every policy obtainable through the public constructors —
`none`, `aggressive`, `default` (and `new`, which delegates to `default`),
or a successful `RetryPolicyBuilder::build` — satisfies the invariant
`initial_interval <= max_interval` with a finite strictly positive
multiplier. In this pure embedding values are immutable, matching the
source where all fields are private and no method mutates a policy. -/
theorem c6_policy_invariant :
    RetryPolicy.none.invariantHolds ∧
    RetryPolicy.aggressive.invariantHolds ∧
    RetryPolicy.default.invariantHolds ∧
    RetryPolicy.new = RetryPolicy.default ∧
    ∀ b : RetryPolicyBuilder, ∀ p : RetryPolicy, b.build = .ok p →
      p.invariantHolds := by
  refine ⟨⟨le_refl _, 1, rfl, one_pos⟩,
    ⟨by norm_num [RetryPolicy.aggressive], 2, rfl, by norm_num⟩,
    ⟨by norm_num [RetryPolicy.default], 2, rfl, by norm_num⟩, rfl, ?_⟩
  intro b p h
  rw [RetryPolicyBuilder.build] at h
  split at h
  · exact absurd h (by simp)
  · rename_i hfirst
    simp only [Bool.or_eq_true, Bool.not_eq_true'] at hfirst
    push_neg at hfirst
    split at h
    · exact absurd h (by simp)
    · rename_i hsecond
      cases h
      refine ⟨Nat.le_of_not_lt hsecond, ?_⟩
      rcases hm : b.multiplier with _ | _ | _ | q
      · rw [hm] at hfirst
        exact absurd rfl hfirst.2
      · rw [hm] at hfirst
        exact absurd rfl hfirst.2
      · rw [hm] at hfirst
        exact absurd rfl hfirst.1
      · refine ⟨q, rfl, ?_⟩
        rw [hm] at hfirst
        have := hfirst.1
        simp only [F64.leZero, decide_eq_true_eq] at this
        exact lt_of_not_le (fun hq => this (by exact_mod_cast (by simpa using hq)))

/-- C6 witness: the default builder's successful build yields a policy
satisfying the invariant. -/
theorem c6_policy_invariant_witness :
    RetryPolicyBuilder.default.build = .ok RetryPolicy.default ∧
    RetryPolicy.default.invariantHolds :=
  ⟨rfl, c6_policy_invariant.2.2.2.2 RetryPolicyBuilder.default RetryPolicy.default rfl⟩

/-- Embedding of `RateLimitConfig` from `src/src/rate_limit/mod.rs`
(lines 18-28). -/
structure RateLimitConfig where
  global_limit : Option Nat
  per_endpoint_tracking : Bool
  auto_wait : Bool
deriving DecidableEq, Repr

/-- Embedding of `RateLimitConfig::default` (`src/src/rate_limit/mod.rs`,
lines 113-121): no global limit, per-endpoint tracking and auto-wait on. -/
def RateLimitConfig.default : RateLimitConfig :=
  { global_limit := none
    per_endpoint_tracking := true
    auto_wait := true }

/-- Embedding of `Client` from `src/src/client.rs` (lines 89-104),
parameterised over the HTTP transport type `H` and the authentication
provider type `A` (in the source, `H : HttpClient` and
`Arc<dyn AuthProvider>`). -/
structure Client (H A : Type) where
  http : H
  auth : A
  rate_limit_config : RateLimitConfig
  retry_policy : RetryPolicy
  base_url : String

/-- Embedding of `ClientBuilder` from `src/src/client.rs` (lines 205-212);
`timeout` is a duration in nanoseconds. -/
structure ClientBuilder (H A : Type) where
  http : Option H
  auth : Option A
  rate_limit_config : Option RateLimitConfig
  retry_policy : Option RetryPolicy
  base_url : Option String
  timeout : Option Nat

/-- Selection of the HTTP transport inside `ClientBuilder::build`
(`src/src/client.rs`, lines 331-337): a custom client is used as is;
otherwise the external constructor `ReqwestClient::with_timeout` or
`ReqwestClient::new` runs. Those constructors live in the external
`reqwest` collaborator, so they are passed in as the fallible functions
`mkDefault` and `mkWithTimeout`. -/
def resolveHttp {H : Type} (mkDefault : Except Error H)
    (mkWithTimeout : Nat → Except Error H)
    (http : Option H) (timeout : Option Nat) : Except Error H :=
  match http with
  | some h => .ok h
  | none =>
    match timeout with
    | some t => mkWithTimeout t
    | none => mkDefault

/-- Embedding of `ClientBuilder::build` (`src/src/client.rs`, lines
317-348): first the authentication check, then the conflicting-options
check, then transport selection, then defaulting of the remaining
fields. -/
def ClientBuilder.build {H A : Type} (mkDefault : Except Error H)
    (mkWithTimeout : Nat → Except Error H)
    (b : ClientBuilder H A) : Except Error (Client H A) :=
  match b.auth with
  | none =>
    .error (.Config "No authentication provider configured. Use .oauth1() or .auth()")
  | some auth =>
    if b.http.isSome && b.timeout.isSome then
      .error (.Config "Cannot set both custom HTTP client and timeout. Configure timeout on your custom client instead.")
    else
      match resolveHttp mkDefault mkWithTimeout b.http b.timeout with
      | .error e => .error e
      | .ok http =>
        .ok { http := http
              auth := auth
              rate_limit_config := b.rate_limit_config.getD RateLimitConfig.default
              retry_policy := b.retry_policy.getD RetryPolicy.default
              base_url := b.base_url.getD "https://api.twitter.com" }

/-- C10: `ClientBuilder::build` returns a `Config` error when no
authentication provider is configured, and a `Config` error when both a
custom HTTP client and a timeout are configured; in every other case —
provided the external HTTP-client constructor it delegates to succeeds —
it returns a client whose base URL defaults to
`https://api.twitter.com` and whose rate-limit and retry configurations
default when unset. -/
theorem c10_client_builder_build (H A : Type) (mkDefault : Except Error H)
    (mkWithTimeout : Nat → Except Error H) (b : ClientBuilder H A) :
    (b.auth = none →
      ∃ msg, ClientBuilder.build mkDefault mkWithTimeout b = .error (.Config msg)) ∧
    (b.http.isSome = true → b.timeout.isSome = true →
      ∃ msg, ClientBuilder.build mkDefault mkWithTimeout b = .error (.Config msg)) ∧
    ∀ a : A, ∀ h : H, b.auth = some a →
      ¬(b.http.isSome = true ∧ b.timeout.isSome = true) →
      resolveHttp mkDefault mkWithTimeout b.http b.timeout = .ok h →
      ClientBuilder.build mkDefault mkWithTimeout b
        = .ok { http := h
                auth := a
                rate_limit_config := b.rate_limit_config.getD RateLimitConfig.default
                retry_policy := b.retry_policy.getD RetryPolicy.default
                base_url := b.base_url.getD "https://api.twitter.com" } := by
  refine ⟨?_, ?_, ?_⟩
  · intro hauth
    rw [ClientBuilder.build, hauth]
    exact ⟨_, rfl⟩
  · intro hh ht
    cases hauth : b.auth with
    | none =>
      rw [ClientBuilder.build, hauth]
      exact ⟨_, rfl⟩
    | some a =>
      refine ⟨"Cannot set both custom HTTP client and timeout. Configure timeout on your custom client instead.", ?_⟩
      simp only [ClientBuilder.build, hauth, hh, ht, Bool.and_self, if_true]
  · intro a h hauth hconflict hres
    have hcond : (b.http.isSome && b.timeout.isSome) = false := by
      cases hh : b.http.isSome <;> cases ht : b.timeout.isSome <;> simp_all
    simp only [ClientBuilder.build, hauth, hcond, Bool.false_eq_true, if_false, hres]

/-- C10 witness at concrete inputs over a unit transport and unit
authenticator: a builder with no authentication yields a `Config` error, a
builder with both a custom client and a timeout yields a `Config` error,
and a builder with only authentication yields a client with the default
base URL and default rate-limit and retry configurations. -/
theorem c10_client_builder_build_witness :
    (∃ msg, ClientBuilder.build (.ok ()) (fun _ => .ok ())
        (⟨none, none, none, none, none, none⟩ : ClientBuilder Unit Unit)
        = .error (.Config msg)) ∧
    (∃ msg, ClientBuilder.build (.ok ()) (fun _ => .ok ())
        (⟨some (), some (), none, none, none, some 1⟩ : ClientBuilder Unit Unit)
        = .error (.Config msg)) ∧
    ClientBuilder.build (.ok ()) (fun _ => .ok ())
        (⟨none, some (), none, none, none, none⟩ : ClientBuilder Unit Unit)
      = .ok { http := ()
              auth := ()
              rate_limit_config := RateLimitConfig.default
              retry_policy := RetryPolicy.default
              base_url := "https://api.twitter.com" } :=
  ⟨(c10_client_builder_build Unit Unit (.ok ()) (fun _ => .ok ())
      ⟨none, none, none, none, none, none⟩).1 rfl,
   (c10_client_builder_build Unit Unit (.ok ()) (fun _ => .ok ())
      ⟨some (), some (), none, none, none, some 1⟩).2.1 rfl rfl,
   (c10_client_builder_build Unit Unit (.ok ()) (fun _ => .ok ())
      ⟨none, some (), none, none, none, none⟩).2.2 () () rfl (by simp) rfl⟩

/-- Modelled from the spec: the `BackoffPolicy` configuration of §4.3.
The repository only declares its retry modules (`pub mod classifier` in
`src/src/retry/mod.rs` has no file under `src/`), so the delay computation
is absent from the source; the parameters here are the jitter-relevant-free
subset {initial_interval, max_interval, multiplier}, as exact rational
durations. -/
structure BackoffPolicy where
  initial_interval : ℚ
  max_interval : ℚ
  multiplier : ℚ

/-- Modelled from the spec: `BackoffPolicy.delay_for` (§4.3), the
jitter-disabled value: `base = min(max_interval, initial_interval *
multiplier^attempt_number)`. With jitter enabled the spec samples uniformly
from `[0, base]`; the claims here concern the deterministic base value. -/
def BackoffPolicy.delay_for (p : BackoffPolicy) (attempt_number : Nat) : ℚ :=
  min p.max_interval (p.initial_interval * p.multiplier ^ attempt_number)

/-- Outcome of one `RetryExecutor.execute` run (§4.4): terminal success, a
permanent failure surfaced on first occurrence, or retry exhaustion
carrying the last failure. -/
inductive ExecOutcome (α : Type) where
  | success (value : α)
  | failure (e : Error)
  | exhausted (last : Error)
deriving DecidableEq, Repr

/-- Modelled from the spec: the dispatch loop of `RetryExecutor.execute`
(§4.4) — the repository declares no executor under `src/`. `dispatch n` is
the transport outcome of the 0-based attempt `n`; `remaining` is
`max_retries - attempt`, the retries still allowed. A permanent failure
returns immediately (step 4); a retryable failure with no retries left
returns Exhausted with the last failure (step 5); otherwise the executor
waits and re-dispatches (step 6). The rate-limit gate of step 1 and the
computed waits only suspend, so this time-free model elides them. The
second component of the result counts dispatch attempts made. -/
def executeFrom (α : Type) (dispatch : Nat → Except Error α)
    (attempt : Nat) (remaining : Nat) : ExecOutcome α × Nat :=
  match dispatch attempt with
  | .ok a => (.success a, 1)
  | .error e =>
    if e.is_retryable then
      match remaining with
      | 0 => (.exhausted e, 1)
      | r + 1 =>
        let rest := executeFrom α dispatch (attempt + 1) r
        (rest.1, rest.2 + 1)
    else (.failure e, 1)

/-- Modelled from the spec: `RetryExecutor.execute` (§4.4) starting at
attempt 0 with `max_retries` retries allowed. -/
def execute (α : Type) (dispatch : Nat → Except Error α)
    (max_retries : Nat) : ExecOutcome α × Nat :=
  executeFrom α dispatch 0 max_retries

/-- Helper for the exhaustion claim: from any starting attempt, an
always-retryable-failing dispatcher consumes all remaining retries, making
one dispatch per attempt. -/
lemma executeFrom_retryable_exhausts (α : Type) (errf : Nat → Error)
    (h : ∀ n, (errf n).is_retryable = true) :
    ∀ remaining attempt,
      executeFrom α (fun n => .error (errf n)) attempt remaining
        = (.exhausted (errf (attempt + remaining)), remaining + 1) := by
  intro remaining
  induction remaining with
  | zero =>
    intro attempt
    simp [executeFrom, h attempt]
  | succ r ih =>
    intro attempt
    rw [executeFrom]
    simp only [h attempt, if_true]
    rw [ih (attempt + 1)]
    have harith : attempt + 1 + r = attempt + (r + 1) := by omega
    rw [harith]

/-- C8 counterexample: with `max_retries = 1` and a dispatcher failing on
every attempt with an authentication error — a permanent failure — the
executor surfaces the failure after a single dispatch attempt; it neither
makes `N + 1 = 2` attempts nor returns Exhausted, refuting the claim as
stated for dispatchers whose failures are not retryable. -/
theorem c8_permanent_failure_counterexample :
    execute Unit (fun _ => Except.error (Error.Authentication "invalid credentials")) 1
      = (ExecOutcome.failure (Error.Authentication "invalid credentials"), 1) ∧
    (ExecOutcome.failure (Error.Authentication "invalid credentials") : ExecOutcome Unit)
      ≠ ExecOutcome.exhausted (Error.Authentication "invalid credentials") ∧
    (1 : Nat) ≠ 1 + 1 := by
  refine ⟨rfl, by simp, by decide⟩

/-- C8 (amended): for every `max_retries = N`, an executor whose
dispatcher fails with a retryable error on every attempt makes exactly
`N + 1` dispatch attempts and returns Exhausted carrying the last
failure. -/
theorem c8_retryable_exhausts (α : Type) (N : Nat) (errf : Nat → Error)
    (h : ∀ n, (errf n).is_retryable = true) :
    execute α (fun n => .error (errf n)) N
      = (.exhausted (errf N), N + 1) := by
  rw [execute, executeFrom_retryable_exhausts α errf h N 0]
  simp

/-- C8 witness: two retries and a dispatcher that always times out give
three dispatch attempts and exhaustion with the timeout failure. -/
theorem c8_retryable_exhausts_witness :
    (Error.Timeout 30).is_retryable = true ∧
    execute Unit (fun _ => Except.error (Error.Timeout 30)) 2
      = (ExecOutcome.exhausted (Error.Timeout 30), 3) :=
  ⟨rfl, c8_retryable_exhausts Unit 2 (fun _ => Error.Timeout 30) (fun _ => rfl)⟩

/-- C7 counterexample: the policy `{initial_interval := 1, max_interval :=
2, multiplier := 1/2}` satisfies the spec invariant (`initial_interval <=
max_interval`, multiplier finite and positive), yet the jitter-free delay
strictly decreases from attempt 0 to attempt 1, refuting the claimed
non-decreasing behaviour. -/
theorem c7_delay_decreasing_counterexample :
    (0 : ℚ) ≤ 1 ∧ (1 : ℚ) ≤ 2 ∧ (0 : ℚ) < 1/2 ∧
    BackoffPolicy.delay_for ⟨1, 2, 1/2⟩ 1 < BackoffPolicy.delay_for ⟨1, 2, 1/2⟩ 0 := by
  refine ⟨by norm_num, by norm_num, by norm_num, ?_⟩
  norm_num [BackoffPolicy.delay_for]

/-- C7 (amended): for every attempt number, the jitter-free backoff delay
equals `min(max_interval, initial_interval * multiplier^attempt_number)`
and never exceeds `max_interval`; provided the multiplier is at least 1
(and the initial interval, being a duration, is non-negative), the delay
is non-decreasing in the attempt number, saturating at `max_interval`. -/
theorem c7_delay_for_spec (p : BackoffPolicy) (n : Nat)
    (h0 : 0 ≤ p.initial_interval) (h1 : 1 ≤ p.multiplier) :
    p.delay_for n = min p.max_interval (p.initial_interval * p.multiplier ^ n) ∧
    p.delay_for n ≤ p.max_interval ∧
    p.delay_for n ≤ p.delay_for (n + 1) := by
  refine ⟨rfl, min_le_left _ _, ?_⟩
  have hpow : p.multiplier ^ n ≤ p.multiplier ^ (n + 1) :=
    pow_le_pow_right₀ h1 (Nat.le_succ n)
  exact min_le_min le_rfl (mul_le_mul_of_nonneg_left hpow h0)

/-- C7 witness: the default-like policy `{1, 60, 2}` at attempt 0. -/
theorem c7_delay_for_spec_witness :
    ((0 : ℚ) ≤ 1 ∧ (1 : ℚ) ≤ 2) ∧
    (BackoffPolicy.delay_for ⟨1, 60, 2⟩ 0 = min (60 : ℚ) (1 * 2 ^ 0) ∧
     BackoffPolicy.delay_for ⟨1, 60, 2⟩ 0 ≤ 60 ∧
     BackoffPolicy.delay_for ⟨1, 60, 2⟩ 0 ≤ BackoffPolicy.delay_for ⟨1, 60, 2⟩ 1) :=
  ⟨⟨by norm_num, by norm_num⟩,
   c7_delay_for_spec ⟨1, 60, 2⟩ 0 (by norm_num) (by norm_num)⟩

/-- C1 counterexample: the claim says every transport-level failure,
including I/O errors and stream-connection failures, is classified
Retryable; but `Error::is_retryable` classifies both the `Io` variant (here
at the concrete input of a connection-refused I/O error) and the
`StreamConnection` variant as not retryable. -/
theorem c1_io_not_retryable_counterexample :
    Error.is_retryable (.ioError ⟨"ConnectionRefused", "connection refused"⟩) = false ∧
    Error.is_retryable (.StreamConnection "failed to establish stream") = false := by
  exact ⟨rfl, rfl⟩

/-- C1 (amended): transport-level failures surfaced as `Network` errors
(connection refused, DNS failure, TLS failure all arrive as
`reqwest::Error`) are classified Retryable, while I/O errors and
stream-connection failures are classified as not retryable (permanent). -/
theorem c1_transport_classification (e : ReqwestError) (io : IoError) (s : String) :
    Error.is_retryable (.Network e) = true ∧
    Error.is_retryable (.ioError io) = false ∧
    Error.is_retryable (.StreamConnection s) = false := by
  exact ⟨rfl, rfl, rfl⟩

/-- C1 witness: the amended classification evaluated at concrete transport
failures. -/
theorem c1_transport_classification_witness :
    Error.is_retryable (.Network ⟨"connection refused"⟩) = true ∧
    Error.is_retryable (.ioError ⟨"TimedOut", "timed out"⟩) = false ∧
    Error.is_retryable (.StreamConnection "connect failed") = false :=
  c1_transport_classification ⟨"connection refused"⟩ ⟨"TimedOut", "timed out"⟩
    "connect failed"

/-- C2: a rate-limit-exceeded failure carrying a reset time is classified
Retryable, its `retry_after` equals `max 0 (reset_at - now)` (positive
remainder when the reset is in the future, zero otherwise), and every
failure that is not a rate-limit failure has no explicit retry delay. -/
theorem c2_rate_limit_retry_after (reset_at : Int) (endpoint : String)
    (remaining limit : Nat) (now : Int) (e : Error)
    (he : e.is_rate_limit = false) :
    Error.is_retryable (.RateLimitExceeded reset_at endpoint remaining limit) = true ∧
    Error.retry_after (.RateLimitExceeded reset_at endpoint remaining limit) now
      = some (max 0 (reset_at - now)).toNat ∧
    e.retry_after now = none := by
  refine ⟨rfl, ?_, ?_⟩
  · show (if now < reset_at then some (reset_at - now).toNat else some 0)
        = some (max 0 (reset_at - now)).toNat
    by_cases h : now < reset_at
    · rw [if_pos h, max_eq_right (by omega)]
    · rw [if_neg h, max_eq_left (by omega)]
      rfl
  · cases e with
    | RateLimitExceeded r ep rem lim => simp [Error.is_rate_limit] at he
    | _ => rfl

/-- C2 witness at concrete inputs: reset 5 ns after `now = 2`, and a
timeout error as the non-rate-limit failure. -/
theorem c2_rate_limit_retry_after_witness :
    (Error.Timeout 30).is_rate_limit = false ∧
    (Error.is_retryable (.RateLimitExceeded 5 "/2/tweets" 0 100) = true ∧
     Error.retry_after (.RateLimitExceeded 5 "/2/tweets" 0 100) 2
       = some (max 0 ((5 : Int) - 2)).toNat ∧
     (Error.Timeout 30).retry_after 2 = none) :=
  ⟨rfl, c2_rate_limit_retry_after 5 "/2/tweets" 0 100 2 (Error.Timeout 30) rfl⟩

/-- C3: an API error with a 5xx status is Retryable; an API error with a
4xx status other than 429 is not retryable; authentication, authorization,
invalid-request, not-found, local configuration and serialization failures
are not retryable. -/
theorem c3_status_classification (detail : ApiErrorDetail) (s : Nat)
    (hs : detail.status = some s) :
    (500 ≤ s → s < 600 → Error.is_retryable (.Api detail) = true) ∧
    (400 ≤ s → s < 500 → s ≠ 429 → Error.is_retryable (.Api detail) = false) ∧
    (∀ msg, Error.is_retryable (.Authentication msg) = false) ∧
    (∀ msg, Error.is_retryable (.Authorization msg) = false) ∧
    (∀ msg, Error.is_retryable (.InvalidRequest msg) = false) ∧
    (∀ msg, Error.is_retryable (.NotFound msg) = false) ∧
    (∀ msg, Error.is_retryable (.Config msg) = false) ∧
    (∀ e, Error.is_retryable (.Serialization e) = false) := by
  refine ⟨?_, ?_, fun _ => rfl, fun _ => rfl, fun _ => rfl, fun _ => rfl,
    fun _ => rfl, fun _ => rfl⟩
  · intro h5 h6
    simp [Error.is_retryable, hs]
    omega
  · intro h4 h5 _
    simp [Error.is_retryable, hs]
    omega

/-- C3 witness at a concrete input: a 503 API error is retryable and a 404
API error is not. -/
theorem c3_status_classification_witness :
    (ApiErrorDetail.mk "SVC_UNAVAILABLE" "unavailable" none none none (some 503)).status
      = some 503 ∧
    Error.is_retryable (.Api ⟨"SVC_UNAVAILABLE", "unavailable", none, none, none, some 503⟩)
      = true ∧
    Error.is_retryable (.Api ⟨"NOT_FOUND", "missing", none, none, none, some 404⟩)
      = false :=
  ⟨rfl,
   (c3_status_classification ⟨"SVC_UNAVAILABLE", "unavailable", none, none, none, some 503⟩
      503 rfl).1 (by decide) (by decide),
   (c3_status_classification ⟨"NOT_FOUND", "missing", none, none, none, some 404⟩
      404 rfl).2.1 (by decide) (by decide) (by decide)⟩

/-- C4: the error classifier is total and deterministic: every `Error`
value is classified as exactly one of retryable and not-retryable (the
match in `Error::is_retryable` covers all fifteen variants), and equal
inputs classify identically. -/
theorem c4_classifier_total_deterministic (e e₁ e₂ : Error) (heq : e₁ = e₂) :
    ((e.is_retryable = true ∧ e.is_retryable ≠ false) ∨
     (e.is_retryable = false ∧ e.is_retryable ≠ true)) ∧
    e₁.is_retryable = e₂.is_retryable := by
  refine ⟨?_, by rw [heq]⟩
  cases h : e.is_retryable
  · exact Or.inr ⟨rfl, by simp [h]⟩
  · exact Or.inl ⟨rfl, by simp [h]⟩

/-- C4 witness at a concrete input: a timeout error classifies to exactly
one outcome, and two equal timeout errors classify identically. -/
theorem c4_classifier_total_deterministic_witness :
    (Error.Timeout 30 = Error.Timeout 30) ∧
    ((((Error.Timeout 30).is_retryable = true ∧ (Error.Timeout 30).is_retryable ≠ false) ∨
      ((Error.Timeout 30).is_retryable = false ∧ (Error.Timeout 30).is_retryable ≠ true)) ∧
     (Error.Timeout 30).is_retryable = (Error.Timeout 30).is_retryable) :=
  ⟨rfl, c4_classifier_total_deterministic (Error.Timeout 30) (Error.Timeout 30)
    (Error.Timeout 30) rfl⟩

/-- C9: a malformed-response failure (`InvalidResponse`) is classified
Retryable even though it is a local parsing problem, while a serialization
failure is classified as not retryable. -/
theorem c9_invalid_response_vs_serialization (s : String) (e : SerdeError) :
    Error.is_retryable (.InvalidResponse s) = true ∧
    Error.is_retryable (.Serialization e) = false := by
  exact ⟨rfl, rfl⟩

/-- C9 witness: the classification evaluated at a concrete malformed
response and a concrete serialization failure. -/
theorem c9_invalid_response_vs_serialization_witness :
    Error.is_retryable (.InvalidResponse "truncated body") = true ∧
    Error.is_retryable (.Serialization ⟨"expected value at line 1"⟩) = false :=
  c9_invalid_response_vs_serialization "truncated body" ⟨"expected value at line 1"⟩

end XApi
